import Mathlib

/-!
Shallow embedding of the SNES emulator core in `emusneshdrv0.py`:
the `Memory`, `CPU65816`, `PPU`, `Joypad` and `EmuSNES` classes, together
with the save-state slots described in the specification (absent from the
source). Machine bytes are modelled as `Nat` with explicit `% 256` where the
source masks with `& 0xFF`; the Python `pc` is an unbounded integer, so it is
a plain `Nat` here as well, matching the source exactly.
-/

namespace Emu

/-- RAM size from `Memory.__init__`: `bytearray(128 * 1024)`. -/
def ramSize : Nat := 128 * 1024

/-- The `Memory` class: RAM as a total byte function, ROM as a byte list,
with `rom_size` tracked as in the source. -/
structure Memory where
  ram : Nat → Nat
  rom : List Nat
  rom_size : Nat

/-- Initial memory: zeroed RAM, empty ROM (`Memory.__init__`). -/
def Memory.init : Memory :=
  { ram := fun _ => 0, rom := [], rom_size := 0 }

/-- `Memory.load_rom`: replaces the ROM contents wholesale and records its
length (the file read is modelled by the byte list argument). -/
def Memory.load_rom (m : Memory) (bytes : List Nat) : Memory :=
  { m with rom := bytes, rom_size := bytes.length }

/-- `Memory.read8`: RAM below 0x2000 via `addr % len(ram)`, ROM window
0x8000–0xFFFF with out-of-image reads returning 0, everything else 0. -/
def Memory.read8 (m : Memory) (addr : Nat) : Nat :=
  if addr < 0x2000 then
    m.ram (addr % ramSize)
  else if 0x8000 ≤ addr ∧ addr ≤ 0xFFFF then
    if addr - 0x8000 < m.rom_size then m.rom.getD (addr - 0x8000) 0 else 0
  else 0

/-- `Memory.write8`: accepted only below 0x2000, value masked to a byte
(`val & 0xFF`, i.e. `% 256` on naturals); all other writes discarded. -/
def Memory.write8 (m : Memory) (addr val : Nat) : Memory :=
  if addr < 0x2000 then
    { m with ram := Function.update m.ram (addr % ramSize) (val % 256) }
  else m

/-- Register file of `CPU65816`. -/
structure CPU where
  pc : Nat
  a : Nat
  sp : Nat
  p : Nat
  cycles : Nat
deriving DecidableEq

/-- `CPU65816.__init__`: pc = 0x8000, a = 0, sp = 0x1FF, p = 0x34, cycles = 0. -/
def CPU.init : CPU :=
  { pc := 0x8000, a := 0, sp := 0x1FF, p := 0x34, cycles := 0 }

/-- `CPU65816.step`. The Boolean is true when the BRK opcode raised: in the
source `self.pc += 1` has already happened before the `raise`, so the
returned state carries the advanced pc and the caller sees the mutation. -/
def CPU.step (m : Memory) (c : CPU) : CPU × Bool :=
  let op := m.read8 c.pc
  let c1 : CPU := { c with pc := c.pc + 1 }
  if op = 0xEA then
    ({ c1 with cycles := c1.cycles + 2 }, false)
  else if op = 0xA9 then
    let v := m.read8 c1.pc
    ({ c1 with pc := c1.pc + 1, a := v, cycles := c1.cycles + 2 }, false)
  else if op = 0x00 then
    (c1, true)
  else
    ({ c1 with cycles := c1.cycles + 2 }, false)

/-- The `for _ in range(n): cpu.step()` loop inside `run_frame`, wrapped in
`try/except`: a raised BRK aborts the remaining iterations but keeps every
mutation already applied. -/
def runSteps : Nat → Memory → CPU → CPU
  | 0, _, c => c
  | n + 1, m, c =>
    if (CPU.step m c).2 then (CPU.step m c).1 else runSteps n m (CPU.step m c).1

/-- A frame as a function from (y, x) to an RGB triple. -/
abbrev Frame := Nat → Nat → Nat × Nat × Nat

/-- `PPU.render_frame`: pixel (y, x) is `(c, 255 - c, c // 2)` with
`c = (x ^ y ^ framecount) & 0xFF`. -/
def renderFrame (framecount : Nat) : Frame :=
  fun y x =>
    let c := (x ^^^ y ^^^ framecount) % 256
    (c, 255 - c, c / 2)

/-- The `EmuSNES` session: memory, CPU, joypad latch, loaded flag, frame
counter. -/
structure EmuSNES where
  mem : Memory
  cpu : CPU
  joypad : Nat
  loaded : Bool
  framecount : Nat

/-- `EmuSNES.__init__`. -/
def EmuSNES.init : EmuSNES :=
  { mem := Memory.init, cpu := CPU.init, joypad := 0, loaded := false,
    framecount := 0 }

/-- `EmuSNES.load_rom`: delegates to `Memory.load_rom` (which always
succeeds on a readable image) and sets `loaded`; nothing else changes. -/
def EmuSNES.load_rom (s : EmuSNES) (bytes : List Nat) : EmuSNES :=
  { s with mem := s.mem.load_rom bytes, loaded := true }

/-- `EmuSNES.reset`: pc back to 0x8000 and framecount to 0; nothing else. -/
def EmuSNES.reset (s : EmuSNES) : EmuSNES :=
  { s with cpu := { s.cpu with pc := 0x8000 }, framecount := 0 }

/-- `EmuSNES.run_frame`: `None` when not loaded; otherwise 100 steps with
the BRK exception trapped, then render and increment framecount. -/
def EmuSNES.run_frame (s : EmuSNES) : Option Frame × EmuSNES :=
  if s.loaded then
    let c2 := runSteps 100 s.mem s.cpu
    (some (renderFrame s.framecount),
      { s with cpu := c2, framecount := s.framecount + 1 })
  else
    (none, s)

/-- `EmuSNES.set_input`, i.e. `Joypad.set_state`: total overwrite of the
latch. -/
def EmuSNES.set_input (s : EmuSNES) (bits : Nat) : EmuSNES :=
  { s with joypad := bits }

/-- Iterated `run_frame`, keeping only the session state. -/
def runFrames : Nat → EmuSNES → EmuSNES
  | 0, s => s
  | n + 1, s => runFrames n (s.run_frame).2

/-- The sequence of frame outputs produced by iterated `run_frame`. -/
def frameOutputs : Nat → EmuSNES → List (Option Frame)
  | 0, _ => []
  | n + 1, s => (s.run_frame).1 :: frameOutputs n (s.run_frame).2

/-- Modelled from the spec: the snapshot captured by `save_state` — the
full {ProcessorState, RAM contents, frame_count} tuple of §4.5. The source
`EmuSNES` class has no save-state methods. -/
structure Snapshot where
  cpu : CPU
  ram : Nat → Nat
  framecount : Nat

/-- Modelled from the spec: a session extended with integer-keyed
save-state slots (§4.5); absent from the source. -/
structure Session where
  emu : EmuSNES
  slots : Nat → Option Snapshot

/-- Modelled from the spec: `save_state(slot)` captures the full
{ProcessorState, RAM contents, frame_count} tuple keyed by the slot. -/
def Session.save_state (st : Session) (slot : Nat) : Session :=
  { st with
    slots := Function.update st.slots slot
      (some { cpu := st.emu.cpu, ram := st.emu.mem.ram,
              framecount := st.emu.framecount }) }

/-- Modelled from the spec: `load_state(slot)` restores the captured tuple;
loading a slot never saved is reported as a failure (`none`), never a
partial state (§7). -/
def Session.load_state (st : Session) (slot : Nat) : Option Session :=
  match st.slots slot with
  | none => none
  | some snap =>
      some { st with emu := { st.emu with
        cpu := snap.cpu,
        mem := { st.emu.mem with ram := snap.ram },
        framecount := snap.framecount } }

/-- One `run_frame` on a session with save slots: only the machine moves. -/
def Session.run_frame (st : Session) : Session :=
  { st with emu := (st.emu.run_frame).2 }

/-- Iterated `run_frame` on a session with save slots. -/
def sessionFrames : Nat → Session → Session
  | 0, st => st
  | n + 1, st => sessionFrames n st.run_frame

/-- The program image of the spec's concrete scenario. -/
def demoRom : List Nat := [0xA9, 0x42, 0xEA, 0x00]

/-- A fresh session with the scenario image loaded at the ROM window base. -/
def demoEmu : EmuSNES := EmuSNES.init.load_rom demoRom

/-- Its memory, for stepping the CPU directly. -/
def demoMem : Memory := demoEmu.mem

/-- A session that has already run one frame of a program whose first byte
is the BRK opcode: its framecount is 1 and its pc has moved past 0x8000. -/
def ranEmu : EmuSNES := ((EmuSNES.init.load_rom [0x00]).run_frame).2

/-- The demo session after one frame: the three demo instructions have run
(LDA, NOP, BRK), so cycles = 4 and framecount = 1. -/
def demoAfterFrame : EmuSNES := (demoEmu.run_frame).2

/-- Any step leaves the cycle counter no smaller: every opcode branch adds 2
cycles except BRK, which leaves it unchanged. -/
lemma step_cycles_le (m : Memory) (c : CPU) :
    c.cycles ≤ (CPU.step m c).1.cycles := by
  simp only [CPU.step]
  split
  · simp
  · split
    · simp
    · split <;> simp

/-- The step batch leaves the cycle counter no smaller. -/
lemma runSteps_cycles_le (n : Nat) (m : Memory) (c : CPU) :
    c.cycles ≤ (runSteps n m c).cycles := by
  induction n generalizing c with
  | zero => exact Nat.le_refl _
  | succ n ih =>
    simp only [runSteps]
    split
    · exact step_cycles_le m c
    · exact Nat.le_trans (step_cycles_le m c) (ih _)

/-- Writes at or above 0x2000 are silently discarded. -/
lemma write8_out_of_ram (m : Memory) (addr v : Nat) (h : 0x2000 ≤ addr) :
    m.write8 addr v = m := by
  simp only [Memory.write8]
  rw [if_neg (by omega)]

/-- Reads above the ROM window return 0. -/
lemma read8_unmapped (m : Memory) (addr : Nat) (h : 0xFFFF < addr) :
    m.read8 addr = 0 := by
  simp only [Memory.read8]
  rw [if_neg (by omega), if_neg (by omega)]

/-- Writing a RAM address and reading it back yields the value mod 256. -/
lemma write8_read8_same (m : Memory) (a v : Nat) (ha : a < 0x2000) :
    (m.write8 a v).read8 a = v % 256 := by
  simp [Memory.write8, Memory.read8, ha]

/-- C1: the spec's concrete scenario claims cycle_count == 4 after the first
step and 6 after the second, but `CPU65816.step` charges exactly 2 cycles
for `LDA #imm` and 2 for `NOP`: the code yields 2 and 4. -/
theorem c1_counterexample :
    ¬ ((CPU.step demoMem demoEmu.cpu).1.cycles = 4 ∧
       (CPU.step demoMem (CPU.step demoMem demoEmu.cpu).1).1.cycles = 6) := by
  decide

/-- C1 (amended): on the image [0xA9, 0x42, 0xEA, 0x00] at the ROM window
base with pc = 0x8000, one step loads 0x42 into the accumulator at cost 2
cycles; a second step is the NOP, cycle_count reaches 4 with the accumulator
unchanged; a third step hits the BRK opcode and signals the halt, and
`run_frame` still produces a frame and advances framecount, so nothing
propagates past the session. -/
theorem c1_scenario :
    (CPU.step demoMem demoEmu.cpu).1.a = 0x42 ∧
    (CPU.step demoMem demoEmu.cpu).1.cycles = 2 ∧
    (CPU.step demoMem demoEmu.cpu).2 = false ∧
    (CPU.step demoMem (CPU.step demoMem demoEmu.cpu).1).1.cycles = 4 ∧
    (CPU.step demoMem (CPU.step demoMem demoEmu.cpu).1).1.a = 0x42 ∧
    (CPU.step demoMem (CPU.step demoMem demoEmu.cpu).1).2 = false ∧
    (CPU.step demoMem
      (CPU.step demoMem (CPU.step demoMem demoEmu.cpu).1).1).2 = true ∧
    (demoEmu.run_frame).1.isSome = true ∧
    (demoEmu.run_frame).2.framecount = 1 := by
  decide

/-- C3: loading a new image does not reset machine state: a session that has
already run a frame keeps framecount = 1 and pc = 0x8001 across `load_rom`,
not the post-reset values 0 and 0x8000. -/
theorem c3_counterexample :
    ¬ ((ranEmu.load_rom demoRom).framecount = 0 ∧
       (ranEmu.load_rom demoRom).cpu.pc = 0x8000) := by
  decide

/-- C3 (amended): each successful load discards the prior ROM contents
wholesale and marks the session loaded, but leaves the processor state, the
frame counter and RAM untouched (no reset happens on load). -/
theorem c3_load_keeps_machine_state (s : EmuSNES) (bytes : List Nat) :
    (s.load_rom bytes).mem.rom = bytes ∧
    (s.load_rom bytes).mem.rom_size = bytes.length ∧
    (s.load_rom bytes).loaded = true ∧
    (s.load_rom bytes).cpu = s.cpu ∧
    (s.load_rom bytes).framecount = s.framecount ∧
    (s.load_rom bytes).mem.ram = s.mem.ram :=
  ⟨rfl, rfl, rfl, rfl, rfl, rfl⟩

/-- C4: the wraparound half of the claim fails: at a = 0, v = 1, k = 1 the
address ram_size lies outside every mapped window, the write is discarded
and the read returns 0, not 1 mod 256 — the RAM branch tests
addr < 0x2000 before applying the modulo, so no mirroring is observable. -/
theorem c4_counterexample :
    ¬ ((Memory.init.write8 (0 + ramSize * 1) 1).read8 (0 + ramSize * 1)
        = 1 % 256) := by
  decide

/-- C4 (amended): for RAM addresses a < 0x2000 the write/read round trip
returns v mod 256, but for every k ≥ 1 the address a + ram_size * k is
unmapped: writes there are discarded and reads return 0. -/
theorem c4_ram_roundtrip (m : Memory) (a v k : Nat) (ha : a < 0x2000)
    (hk : 1 ≤ k) :
    ((m.write8 a v).read8 a = v % 256) ∧
    (m.write8 (a + ramSize * k) v = m) ∧
    (m.read8 (a + ramSize * k) = 0) := by
  have hbig : 0xFFFF < a + ramSize * k := by
    obtain ⟨k', rfl⟩ : ∃ k', k = k' + 1 := ⟨k - 1, by omega⟩
    simp only [ramSize]
    omega
  exact ⟨write8_read8_same m a v ha,
    write8_out_of_ram m _ v (by omega),
    read8_unmapped m _ hbig⟩

/-- C4 witness: the amended round trip at m = initial memory, a = 0x10,
v = 300, k = 1. -/
theorem c4_witness :
    ((Memory.init.write8 0x10 300).read8 0x10 = 300 % 256) ∧
    (Memory.init.write8 (0x10 + ramSize * 1) 300 = Memory.init) ∧
    (Memory.init.read8 (0x10 + ramSize * 1) = 0) :=
  c4_ram_roundtrip Memory.init 0x10 300 1 (by decide) (by decide)

/-- C5: `reset()` does not zero the cycle counter: after running the demo
frame the CPU has 4 cycles, and they survive the reset. -/
theorem c5_counterexample :
    ¬ ((demoAfterFrame.reset).cpu.cycles = 0) := by
  decide

/-- C5 (amended): cycle_count is monotonically non-decreasing across every
`step()` and every `run_frame()`, and `reset()` leaves it unchanged — it is
never reset to 0 within a session's life. -/
theorem c5_cycles_monotone_reset_preserves :
    (∀ m c, c.cycles ≤ (CPU.step m c).1.cycles) ∧
    (∀ s : EmuSNES, s.cpu.cycles ≤ ((s.run_frame).2).cpu.cycles) ∧
    (∀ s : EmuSNES, (s.reset).cpu.cycles = s.cpu.cycles) := by
  refine ⟨step_cycles_le, ?_, fun s => rfl⟩
  intro s
  by_cases h : s.loaded = true
  · simp only [EmuSNES.run_frame, if_pos h]
    exact runSteps_cycles_le _ _ _
  · simp only [EmuSNES.run_frame, if_neg h]
    exact Nat.le_refl _

/-- A loaded session's `run_frame` always produces the frame for the current
framecount. -/
lemma run_frame_fst (s : EmuSNES) (h : s.loaded = true) :
    (s.run_frame).1 = some (renderFrame s.framecount) := by
  simp only [EmuSNES.run_frame, if_pos h]

/-- C6: after any history, `reset()` followed by `run_frame()` reproduces
exactly the first frame produced after the initial load of any image — both
are the frame for framecount 0, and the frame depends only on the
framecount — while reset leaves the memory (RAM included) untouched. -/
theorem c6_reset_reproduces_first_frame (t : EmuSNES) (bytes : List Nat)
    (h : t.loaded = true) :
    ((t.reset).run_frame).1 = ((EmuSNES.init.load_rom bytes).run_frame).1 ∧
    ((t.reset).run_frame).1 = some (renderFrame 0) ∧
    (t.reset).mem.ram = t.mem.ram ∧
    (t.reset).mem = t.mem := by
  have hA := run_frame_fst t.reset h
  have hB := run_frame_fst (EmuSNES.init.load_rom bytes) rfl
  exact ⟨hA.trans hB.symm, hA, rfl, rfl⟩

/-- C6 witness: the reset/first-frame law at the loaded demo session. -/
theorem c6_witness :
    demoEmu.loaded = true ∧
    (((demoEmu.reset).run_frame).1
        = ((EmuSNES.init.load_rom demoRom).run_frame).1 ∧
      ((demoEmu.reset).run_frame).1 = some (renderFrame 0) ∧
      (demoEmu.reset).mem.ram = demoEmu.mem.ram ∧
      (demoEmu.reset).mem = demoEmu.mem) :=
  ⟨rfl, c6_reset_reproduces_first_frame demoEmu demoRom rfl⟩

/-- C7: execution anomalies never escape: an opcode outside the decoded set
degrades to a no-operation (pc + 1, cycles + 2, no halt), and a loaded
session's `run_frame` always renders the frame and increments framecount —
in particular a BRK inside the batch is trapped, never propagated. -/
theorem c7_anomalies_never_escape (m : Memory) (c : CPU) (s : EmuSNES) :
    (m.read8 c.pc ≠ 0xEA → m.read8 c.pc ≠ 0xA9 → m.read8 c.pc ≠ 0x00 →
      CPU.step m c
        = ({ c with pc := c.pc + 1, cycles := c.cycles + 2 }, false)) ∧
    (s.loaded = true →
      (s.run_frame).1 = some (renderFrame s.framecount) ∧
      (s.run_frame).2.framecount = s.framecount + 1) := by
  constructor
  · intro h1 h2 h3
    simp only [CPU.step]
    rw [if_neg h1, if_neg h2, if_neg h3]
  · intro h
    simp only [EmuSNES.run_frame, if_pos h]
    exact ⟨trivial, trivial⟩

/-- An image whose sole byte is an opcode the CPU does not decode. -/
def oddMem : Memory := Memory.init.load_rom [0x42]

/-- A session whose whole ROM is the BRK opcode: its first frame hits the
halt on the very first step. -/
def brkEmu : EmuSNES := EmuSNES.init.load_rom [0x00]

/-- C7 witness: the unmapped opcode 0x42 steps as a no-operation, and the
session whose program halts immediately still renders and counts its
frame. -/
theorem c7_witness :
    (oddMem.read8 CPU.init.pc ≠ 0xEA ∧ oddMem.read8 CPU.init.pc ≠ 0xA9 ∧
      oddMem.read8 CPU.init.pc ≠ 0x00 ∧ brkEmu.loaded = true) ∧
    (CPU.step oddMem CPU.init
      = ({ CPU.init with pc := CPU.init.pc + 1, cycles := CPU.init.cycles + 2 }, false)) ∧
    ((brkEmu.run_frame).1 = some (renderFrame brkEmu.framecount) ∧
      (brkEmu.run_frame).2.framecount = brkEmu.framecount + 1) :=
  ⟨⟨by decide, by decide, by decide, rfl⟩,
    (c7_anomalies_never_escape oddMem CPU.init brkEmu).1
      (by decide) (by decide) (by decide),
    (c7_anomalies_never_escape oddMem CPU.init brkEmu).2 rfl⟩

/-- C8: `read8` is total — every address falls into one of the decided
cases: RAM below 0x2000 through the modulo, the ROM window with in-image
offsets read from the ROM and out-of-image offsets reading 0, and every
other address reading 0. -/
theorem c8_read8_total (m : Memory) (addr : Nat) :
    (addr < 0x2000 → m.read8 addr = m.ram (addr % ramSize)) ∧
    (0x8000 ≤ addr → addr ≤ 0xFFFF → addr - 0x8000 < m.rom_size →
      m.read8 addr = m.rom.getD (addr - 0x8000) 0) ∧
    (0x8000 ≤ addr → addr ≤ 0xFFFF → m.rom_size ≤ addr - 0x8000 →
      m.read8 addr = 0) ∧
    (0x2000 ≤ addr → addr < 0x8000 → m.read8 addr = 0) ∧
    (0xFFFF < addr → m.read8 addr = 0) := by
  refine ⟨?_, ?_, ?_, ?_, ?_⟩
  · intro h
    simp only [Memory.read8]
    rw [if_pos h]
  · intro h1 h2 h3
    simp only [Memory.read8]
    rw [if_neg (by omega), if_pos ⟨h1, h2⟩, if_pos h3]
  · intro h1 h2 h3
    simp only [Memory.read8]
    rw [if_neg (by omega), if_pos ⟨h1, h2⟩, if_neg (by omega)]
  · intro h1 h2
    simp only [Memory.read8]
    rw [if_neg (by omega), if_neg (by omega)]
  · exact fun h => read8_unmapped m addr h

/-- C8 witness: each mapping case at a concrete address of the demo memory
(whose ROM holds 4 bytes): RAM at 0x10, in-image ROM at 0x8002, past the
image at 0x8004, the unmapped hole at 0x3000, above the window at
0x10000. -/
theorem c8_witness :
    (demoMem.read8 0x10 = demoMem.ram (0x10 % ramSize)) ∧
    (demoMem.read8 0x8002 = demoMem.rom.getD (0x8002 - 0x8000) 0) ∧
    (demoMem.read8 0x8004 = 0) ∧
    (demoMem.read8 0x3000 = 0) ∧
    (demoMem.read8 0x10000 = 0) :=
  ⟨(c8_read8_total demoMem 0x10).1 (by decide),
    (c8_read8_total demoMem 0x8002).2.1 (by decide) (by decide) (by decide),
    (c8_read8_total demoMem 0x8004).2.2.1 (by decide) (by decide) (by decide),
    (c8_read8_total demoMem 0x3000).2.2.2.1 (by decide) (by decide),
    (c8_read8_total demoMem 0x10000).2.2.2.2 (by decide)⟩

/-- C10: the BRK step returns the CPU with pc already one past the halt
opcode and every other register and the cycle counter untouched; the step
batch stops at the halt keeping exactly that state; and a loaded session's
`run_frame` stores precisely the batch's final CPU (no rollback), with
memory untouched — so the next `run_frame` resumes from the byte after the
halt with every mutation retained. -/
theorem c10_halt_advances_and_resumes (m : Memory) (c : CPU) (n : Nat)
    (s : EmuSNES) :
    (m.read8 c.pc = 0x00 →
      CPU.step m c = ({ c with pc := c.pc + 1 }, true)) ∧
    ((CPU.step m c).2 = true → runSteps (n + 1) m c = (CPU.step m c).1) ∧
    (s.loaded = true →
      (s.run_frame).2.cpu = runSteps 100 s.mem s.cpu ∧
      (s.run_frame).2.mem = s.mem) := by
    refine ⟨?_, ?_, ?_⟩
    · intro h
      simp only [CPU.step]
      rw [if_neg (by rw [h]; decide), if_neg (by rw [h]; decide), if_pos h]
    · intro h
      simp only [runSteps]
      rw [if_pos h]
    · intro h
      simp only [EmuSNES.run_frame, if_pos h]
      exact ⟨trivial, trivial⟩

/-- The demo CPU two steps in: its pc (0x8003) points at the BRK byte. -/
def haltCpu : CPU := (CPU.step demoMem (CPU.step demoMem demoEmu.cpu).1).1

/-- C10 witness: the halt law at the demo image, whose fourth byte is BRK. -/
theorem c10_witness :
    (demoMem.read8 haltCpu.pc = 0x00 ∧ (CPU.step demoMem haltCpu).2 = true ∧
      demoEmu.loaded = true) ∧
    (CPU.step demoMem haltCpu = ({ haltCpu with pc := haltCpu.pc + 1 }, true)) ∧
    (runSteps (5 + 1) demoMem haltCpu = (CPU.step demoMem haltCpu).1) ∧
    ((demoEmu.run_frame).2.cpu = runSteps 100 demoEmu.mem demoEmu.cpu ∧
      (demoEmu.run_frame).2.mem = demoEmu.mem) :=
  ⟨⟨by decide, by decide, rfl⟩,
    (c10_halt_advances_and_resumes demoMem haltCpu 5 demoEmu).1 (by decide),
    (c10_halt_advances_and_resumes demoMem haltCpu 5 demoEmu).2.1 (by decide),
    (c10_halt_advances_and_resumes demoMem haltCpu 5 demoEmu).2.2 rfl⟩

/-- Iterated frames never touch the save slots. -/
lemma sessionFrames_slots (k : Nat) (st : Session) :
    (sessionFrames k st).slots = st.slots := by
  induction k generalizing st with
  | zero => rfl
  | succ n ih => exact (ih _).trans rfl

/-- C2: the save/load round-trip law — `save_state(n)`, then any number of
`run_frame` calls, then `load_state(n)` succeeds and restores the processor
state, the RAM contents and frame_count to their values at save time, so
the next `render_frame` output is exactly what it would have been then. -/
theorem c2_save_load_roundtrip (st : Session) (n k : Nat) :
    ∃ st2, (sessionFrames k (st.save_state n)).load_state n = some st2 ∧
      st2.emu.cpu = st.emu.cpu ∧
      st2.emu.mem.ram = st.emu.mem.ram ∧
      st2.emu.framecount = st.emu.framecount ∧
      renderFrame st2.emu.framecount = renderFrame st.emu.framecount := by
  have hs : (sessionFrames k (st.save_state n)).slots n
      = some { cpu := st.emu.cpu, ram := st.emu.mem.ram,
               framecount := st.emu.framecount } := by
    rw [sessionFrames_slots]
    simp [Session.save_state]
  refine ⟨{ sessionFrames k (st.save_state n) with
    emu := { (sessionFrames k (st.save_state n)).emu with
      cpu := st.emu.cpu,
      mem := { (sessionFrames k (st.save_state n)).emu.mem with
        ram := st.emu.mem.ram },
      framecount := st.emu.framecount } }, ?_, rfl, rfl, rfl, rfl⟩
  simp only [Session.load_state, hs]

/-- Setting the input latch changes only the joypad field, and `run_frame`
neither reads nor writes it. -/
lemma run_frame_set_input (s : EmuSNES) (v : Nat) :
    ((s.set_input v).run_frame).1 = (s.run_frame).1 ∧
    ((s.set_input v).run_frame).2 = ((s.run_frame).2).set_input v := by
  by_cases h : s.loaded = true
  · constructor <;> simp [EmuSNES.run_frame, EmuSNES.set_input, h]
  · constructor <;> simp [EmuSNES.run_frame, EmuSNES.set_input, h]

/-- The input latch value commutes out of any number of frames. -/
lemma runFrames_set_input (k : Nat) (s : EmuSNES) (v : Nat) :
    runFrames k (s.set_input v) = (runFrames k s).set_input v := by
  induction k generalizing s with
  | zero => rfl
  | succ n ih =>
    show runFrames n ((s.set_input v).run_frame).2
        = (runFrames n (s.run_frame).2).set_input v
    rw [(run_frame_set_input s v).2]
    exact ih _

/-- The frame outputs ignore the input latch entirely. -/
lemma frameOutputs_set_input (k : Nat) (s : EmuSNES) (v : Nat) :
    frameOutputs k (s.set_input v) = frameOutputs k s := by
  induction k generalizing s with
  | zero => rfl
  | succ n ih =>
    show ((s.set_input v).run_frame).1
          :: frameOutputs n ((s.set_input v).run_frame).2
        = (s.run_frame).1 :: frameOutputs n (s.run_frame).2
    rw [(run_frame_set_input s v).1, (run_frame_set_input s v).2, ih]

/-- C9: the joypad input never influences emulation — for any two input
bitmasks written before any number of frames, the processor state, the
memory, the frame counter and the whole sequence of frame outputs are
identical; the latch is written by `set_input` and read by nothing. -/
theorem c9_input_noninterference (s : EmuSNES) (v1 v2 : Nat) (k : Nat) :
    (runFrames k (s.set_input v1)).cpu = (runFrames k (s.set_input v2)).cpu ∧
    (runFrames k (s.set_input v1)).mem = (runFrames k (s.set_input v2)).mem ∧
    (runFrames k (s.set_input v1)).framecount
        = (runFrames k (s.set_input v2)).framecount ∧
    frameOutputs k (s.set_input v1) = frameOutputs k (s.set_input v2) := by
  rw [runFrames_set_input k s v1, runFrames_set_input k s v2,
    frameOutputs_set_input k s v1, frameOutputs_set_input k s v2]
  exact ⟨rfl, rfl, rfl, rfl⟩

end Emu
